import Mathlib

/-!
Shallow embedding of the connection-lease and transaction-lifecycle core of
the peculiar-orm repository (src/connection/TransactionManager.ts and
src/connection/ConnectionPoolManager.ts), together with theorems settling
the frozen claims about it.

Conventions of the embedding:
* JS `Date` values and durations become `Nat` timestamps (milliseconds);
  `endTime.getTime() - startTime.getTime()` becomes truncated `Nat`
  subtraction, which coincides with the JS value for monotone clocks.
* `Math.max(0, x - 1)` on the `activeLeasedConnections` counter is kept as
  an explicit `max 0 (x - 1)` over `Int`, mirroring that a JS number could
  otherwise go negative.
* Asynchronous calls are modelled as atomic steps (the spec's stated
  concurrency model); the outcome of each awaited driver call (connection
  acquisition, `BEGIN`/`SET`/`COMMIT`/`ROLLBACK` statements) is an explicit
  environment parameter of the operation.
* Randomly generated identifier strings (`txn_...`, `conn_...`) become
  `Nat` parameters (transaction ids) or a state counter (connection ids,
  which the code guarantees to be fresh per acquisition).
* Calls into the pg driver (`client.release()`, `pg_cancel_backend`,
  event emission) are recorded as observable effects / ghost counters.
-/

deriving instance DecidableEq for Except

namespace PeculiarOrm

/-- Transaction status values of `TransactionMetrics.transactionHistory`. -/
inductive TxnStatus
  | active
  | committed
  | rolled_back
  | failed
deriving DecidableEq, Repr

/-- `TransactionOptions` of TransactionManager.ts (isolationLevel?, readOnly?). -/
structure TxnOptions where
  isolationLevel : Option String := none
  readOnly : Option Bool := none
deriving DecidableEq, Repr

/-- One entry of `TransactionMetrics.transactionHistory`. -/
structure TxnHistoryEntry where
  transactionId : Nat
  startTime : Nat
  endTime : Option Nat := none
  duration : Option Nat := none
  status : TxnStatus
  isolationLevel : Option String := none
  readOnly : Option Bool := none
  error : Option String := none
deriving DecidableEq, Repr

/-- The `TransactionMetrics` record of TransactionManager.ts. -/
structure TxnMetrics where
  totalTransactions : Nat
  activeTransactions : Nat
  completedTransactions : Nat
  committedTransactions : Nat
  rolledBackTransactions : Nat
  failedTransactions : Nat
  transactionDurations : List Nat
  lastMetricsResetTime : Nat
  transactionHistory : List TxnHistoryEntry
deriving DecidableEq, Repr

/-- The initial `metrics` field value of a `TransactionManager`. -/
def initialTxnMetrics (now : Nat) : TxnMetrics :=
  { totalTransactions := 0
    activeTransactions := 0
    completedTransactions := 0
    committedTransactions := 0
    rolledBackTransactions := 0
    failedTransactions := 0
    transactionDurations := []
    lastMetricsResetTime := now
    transactionHistory := [] }

/-- Mutable state of one `TransactionManager` instance.  `client` holds the
identifier of the leased `PoolClient` (or `none`).  `clientReleaseCalls` is a
ghost counter of the `this.client.release()` calls the instance has made, used
to state release-exactly-once properties. -/
structure TMState where
  client : Option Nat
  isTransactionActive : Bool
  requestId : Nat
  metrics : TxnMetrics
  transactionStartTime : Option Nat
  currentTransactionOptions : Option TxnOptions
  clientReleaseCalls : Nat
deriving DecidableEq, Repr

/-- A freshly constructed `TransactionManager` (constructor at line 63). -/
def initTM (requestId now : Nat) : TMState :=
  { client := none
    isTransactionActive := false
    requestId := requestId
    metrics := initialTxnMetrics now
    transactionStartTime := none
    currentTransactionOptions := none
    clientReleaseCalls := 0 }

/-- `if (history.length > 100) history = history.slice(-100)` — keep the last
100 entries (TransactionManager.ts lines 132-134 and 165-167). -/
def capTxnHistory (h : List TxnHistoryEntry) : List TxnHistoryEntry :=
  if h.length > 100 then h.drop (h.length - 100) else h

/-- `if (durations.length > 1000) durations = durations.slice(-1000)` (commit,
lines 212-214). -/
def capDurations (ds : List Nat) : List Nat :=
  if ds.length > 1000 then ds.drop (ds.length - 1000) else ds

/-- Mutating the first list element satisfying `p` in place, as JS
`array.find(...)` followed by field assignments on the returned reference. -/
def updateFirst {α : Type} (p : α → Bool) (f : α → α) : List α → List α
  | [] => []
  | e :: rest => if p e then f e :: rest else e :: updateFirst p f rest

/-- `releaseClient()` (TransactionManager.ts lines 341-353): if a client is
held, decrement `activeTransactions` (clamped at 0, here by `Nat`
subtraction) when a transaction was active, call `client.release()`, and
reset `client` / `isTransactionActive` / `transactionStartTime`. -/
def releaseClient (s : TMState) : TMState :=
  match s.client with
  | none => s
  | some _ =>
    let m := if s.isTransactionActive then
        { s.metrics with activeTransactions := s.metrics.activeTransactions - 1 }
      else s.metrics
    { s with metrics := m
             client := none
             isTransactionActive := false
             transactionStartTime := none
             clientReleaseCalls := s.clientReleaseCalls + 1 }

/-- Outcome of the awaited pool/driver calls inside `beginTransaction`:
either `poolManager.getConnection` rejects, or it resolves and one of the
setup statements (`BEGIN`, `SET TRANSACTION ...`) throws, or everything
succeeds and the manager holds client `clientId`. -/
inductive BeginEnv
  | acquireFail (msg : String)
  | setupFail (clientId : Nat) (msg : String)
  | success (clientId : Nat)
deriving DecidableEq, Repr

/-- The history entry pushed by the already-active branch of
`beginTransaction` (lines 123-130). -/
def alreadyActiveEntry (transactionId now : Nat) (options : Option TxnOptions) :
    TxnHistoryEntry :=
  { transactionId := transactionId
    startTime := now
    status := TxnStatus.failed
    isolationLevel := options.bind (fun o => o.isolationLevel)
    readOnly := options.bind (fun o => o.readOnly)
    error := some "Transaction already in progress" }

/-- The history entry pushed by the success path of `beginTransaction`
(lines 157-163). -/
def activeEntry (transactionId now : Nat) (options : Option TxnOptions) :
    TxnHistoryEntry :=
  { transactionId := transactionId
    startTime := now
    status := TxnStatus.active
    isolationLevel := options.bind (fun o => o.isolationLevel)
    readOnly := options.bind (fun o => o.readOnly) }

/-- The `catch` block of `beginTransaction` (lines 169-188): increment
`failedTransactions`, mark the history entry with this `transactionId` as
failed (the lookup misses whenever no entry was pushed), and release the
client if one was acquired. -/
def beginCatch (s : TMState) (transactionId now : Nat) (msg : String) : TMState :=
  let m := { s.metrics with
    failedTransactions := s.metrics.failedTransactions + 1
    transactionHistory :=
      updateFirst (fun t => t.transactionId == transactionId)
        (fun t => { t with status := TxnStatus.failed
                           endTime := some now
                           duration := some (now - t.startTime)
                           error := some msg })
        s.metrics.transactionHistory }
  let s1 := { s with metrics := m }
  if s1.client.isSome then releaseClient s1 else s1

/-- `beginTransaction(options?)` (TransactionManager.ts lines 114-189).
`transactionId` models the freshly generated id, `now` the current time,
`env` the outcome of the awaited calls.  Note the code overwrites
`this.requestId` and `this.currentTransactionOptions` before checking
`isTransactionActive`. -/
def beginTransaction (s : TMState) (transactionId now : Nat)
    (options : Option TxnOptions) (env : BeginEnv) : Except String Unit × TMState :=
  let s0 := { s with requestId := transactionId, currentTransactionOptions := options }
  if s0.isTransactionActive then
    let m := { s0.metrics with
      failedTransactions := s0.metrics.failedTransactions + 1
      transactionHistory :=
        capTxnHistory (s0.metrics.transactionHistory ++ [alreadyActiveEntry transactionId now options]) }
    (Except.error "Transaction already in progress", { s0 with metrics := m })
  else
    let s1 := { s0 with
      transactionStartTime := some now
      metrics := { s0.metrics with totalTransactions := s0.metrics.totalTransactions + 1 } }
    match env with
    | BeginEnv.acquireFail msg =>
      (Except.error msg, beginCatch s1 transactionId now msg)
    | BeginEnv.setupFail clientId msg =>
      (Except.error msg, beginCatch { s1 with client := some clientId } transactionId now msg)
    | BeginEnv.success clientId =>
      let s2 := { s1 with
        client := some clientId
        isTransactionActive := true
        metrics := { s1.metrics with activeTransactions := s1.metrics.activeTransactions + 1 } }
      (Except.ok (),
       { s2 with metrics := { s2.metrics with
           transactionHistory :=
             capTxnHistory (s2.metrics.transactionHistory ++ [activeEntry transactionId now options]) } })

/-- History/durations update of the success path of `commit` (lines 204-216):
mark the entry found by `requestId` committed and, when
`transactionStartTime` is set, record its duration (durations capped at
1000). -/
def commitSuccessHistory (m : TxnMetrics) (requestId now : Nat)
    (startTime : Option Nat) : TxnMetrics :=
  { m with
    transactionHistory :=
      updateFirst (fun t => t.transactionId == requestId)
        (fun t =>
          if startTime.isSome then
            { t with status := TxnStatus.committed, endTime := some now,
                     duration := some (now - t.startTime) }
          else
            { t with status := TxnStatus.committed, endTime := some now })
        m.transactionHistory
    transactionDurations :=
      match m.transactionHistory.find? (fun t => t.transactionId == requestId), startTime with
      | some e, some _ => capDurations (m.transactionDurations ++ [now - e.startTime])
      | _, _ => m.transactionDurations }

/-- History update of the `catch` path of `commit` (lines 218-227). -/
def commitFailureHistory (m : TxnMetrics) (requestId now : Nat)
    (startTime : Option Nat) (msg : String) : TxnMetrics :=
  { m with
    transactionHistory :=
      updateFirst (fun t => t.transactionId == requestId)
        (fun t =>
          let t1 := { t with status := TxnStatus.failed, endTime := some now,
                             error := some (String.append "Commit failed: " msg) }
          if startTime.isSome then { t1 with duration := some (now - t.startTime) } else t1)
        m.transactionHistory }

/-- History/durations update of the success path of `rollback` (lines
246-254); unlike `commit`, the duration push is not capped here. -/
def rollbackSuccessHistory (m : TxnMetrics) (requestId now : Nat)
    (startTime : Option Nat) : TxnMetrics :=
  { m with
    transactionHistory :=
      updateFirst (fun t => t.transactionId == requestId)
        (fun t =>
          if startTime.isSome then
            { t with status := TxnStatus.rolled_back, endTime := some now,
                     duration := some (now - t.startTime) }
          else
            { t with status := TxnStatus.rolled_back, endTime := some now })
        m.transactionHistory
    transactionDurations :=
      match m.transactionHistory.find? (fun t => t.transactionId == requestId), startTime with
      | some e, some _ => m.transactionDurations ++ [now - e.startTime]
      | _, _ => m.transactionDurations }

/-- History update of the `catch` path of `rollback` (lines 256-267). -/
def rollbackFailureHistory (m : TxnMetrics) (requestId now : Nat)
    (startTime : Option Nat) (msg : String) : TxnMetrics :=
  { m with
    transactionHistory :=
      updateFirst (fun t => t.transactionId == requestId)
        (fun t =>
          let t1 := { t with status := TxnStatus.failed, endTime := some now,
                             error := some (String.append "Rollback failed: " msg) }
          if startTime.isSome then { t1 with duration := some (now - t.startTime) } else t1)
        m.transactionHistory }

/-- `commit()` (TransactionManager.ts lines 191-233).  `queryError = none`
models a successful `COMMIT` round-trip, `some msg` a driver error.  The
`finally` block releases the client in both branches; the guard branch
(no active transaction) precedes the `try` and releases nothing. -/
def commit (s : TMState) (now : Nat) (queryError : Option String) :
    Except String Unit × TMState :=
  if !s.isTransactionActive || s.client.isNone then
    (Except.error "No active transaction to commit",
     { s with metrics := { s.metrics with
         failedTransactions := s.metrics.failedTransactions + 1 } })
  else
    match queryError with
    | none =>
      let m := { s.metrics with
        committedTransactions := s.metrics.committedTransactions + 1
        completedTransactions := s.metrics.completedTransactions + 1 }
      (Except.ok (),
       releaseClient { s with metrics := commitSuccessHistory m s.requestId now s.transactionStartTime })
    | some msg =>
      (Except.error msg,
       releaseClient { s with metrics := commitFailureHistory s.metrics s.requestId now s.transactionStartTime msg })

/-- `rollback()` (TransactionManager.ts lines 235-271).  A no-op returning
normally when no transaction is active. -/
def rollback (s : TMState) (now : Nat) (queryError : Option String) :
    Except String Unit × TMState :=
  if !s.isTransactionActive || s.client.isNone then
    (Except.ok (), s)
  else
    match queryError with
    | none =>
      let m := { s.metrics with
        rolledBackTransactions := s.metrics.rolledBackTransactions + 1
        completedTransactions := s.metrics.completedTransactions + 1 }
      (Except.ok (),
       releaseClient { s with metrics := rollbackSuccessHistory m s.requestId now s.transactionStartTime })
    | some msg =>
      (Except.error msg,
       releaseClient { s with metrics := rollbackFailureHistory s.metrics s.requestId now s.transactionStartTime msg })

/-- One completed public operation on a `TransactionManager`. -/
inductive TMOp
  | beginTxn (transactionId now : Nat) (options : Option TxnOptions) (env : BeginEnv)
  | commitTxn (now : Nat) (queryError : Option String)
  | rollbackTxn (now : Nat) (queryError : Option String)
deriving DecidableEq, Repr

/-- State after one completed operation (result value discarded). -/
def tmStep (s : TMState) : TMOp → TMState
  | TMOp.beginTxn transactionId now options env => (beginTransaction s transactionId now options env).2
  | TMOp.commitTxn now e => (commit s now e).2
  | TMOp.rollbackTxn now e => (rollback s now e).2

/-- State after a sequence of completed operations. -/
def tmRun (s : TMState) : List TMOp → TMState
  | [] => s
  | op :: ops => tmRun (tmStep s op) ops

/-! ## ConnectionPoolManager (src/connection/ConnectionPoolManager.ts) -/

/-- `connectionHistory` event types (ConnectionPoolManager.ts line 17). -/
inductive ConnEvent
  | acquired
  | released
  | failed_acquire
  | client_error_released
deriving DecidableEq, Repr

/-- One entry of `ConnectionPoolMetrics.connectionHistory`. -/
structure ConnHistoryEntry where
  type : ConnEvent
  timestamp : Nat
  connectionId : Option Nat := none
  durationMs : Option Nat := none
  error : Option String := none
deriving DecidableEq, Repr

/-- `ConnectionOptions` of src/types/index.ts. -/
structure ConnectionOptions where
  isolationLevel : Option String := none
  readOnly : Option Bool := none
deriving DecidableEq, Repr

/-- The `ConnectionPoolMetrics` record.  `activeLeasedConnections` and
`maxConcurrentLeasedConnections` are kept as `Int` so that the code's
explicit `Math.max(0, x - 1)` clamp is visible rather than absorbed by `Nat`
subtraction. -/
structure PoolMetrics where
  totalConnectionsCreated : Nat
  acquiredConnections : Nat
  releasedConnections : Nat
  failedAcquisitions : Nat
  activeLeasedConnections : Int
  maxConcurrentLeasedConnections : Int
  connectionDurations : List Nat
  connectionHistory : List ConnHistoryEntry
  lastMetricsResetTime : Nat
  poolTotalCount : Nat
  poolIdleCount : Nat
  poolWaitingCount : Nat
deriving DecidableEq, Repr

/-- `initializeMetrics()` (ConnectionPoolManager.ts lines 85-100). -/
def initializeMetrics (now : Nat) : PoolMetrics :=
  { totalConnectionsCreated := 0
    acquiredConnections := 0
    releasedConnections := 0
    failedAcquisitions := 0
    activeLeasedConnections := 0
    maxConcurrentLeasedConnections := 0
    connectionDurations := []
    connectionHistory := []
    lastMetricsResetTime := now
    poolTotalCount := 0
    poolIdleCount := 0
    poolWaitingCount := 0 }

/-- A `ConnectionTimestamp` entry of the `connectionTimestamps` tracking
table.  `queryTimeoutTimer` records whether a pending (armed, not yet fired
or cleared) query-deadline timer is stored for this lease. -/
structure ConnInfo where
  acquiredAt : Nat
  options : Option ConnectionOptions := none
  processID : Option Nat := none
  queryTimeoutTimer : Bool := false
deriving DecidableEq, Repr

/-- State of one `ConnectionPoolManager`.  `poolCheckedOut` counts the
physical clients currently checked out of the underlying pg pool (the pg
driver hands out at most `maxConnections` concurrently — external driver
behaviour the manager relies on).  `nextConnId` models the generation of
fresh `internalConnectionId` strings. -/
structure CPMState where
  maxConnections : Nat
  poolCheckedOut : Nat
  nextConnId : Nat
  metrics : PoolMetrics
  connectionTimestamps : List (Nat × ConnInfo)
deriving DecidableEq, Repr

/-- A freshly constructed manager over an empty pool with `maxConnections`
capacity. -/
def initCPM (maxConnections now : Nat) : CPMState :=
  { maxConnections := maxConnections
    poolCheckedOut := 0
    nextConnId := 0
    metrics := initializeMetrics now
    connectionTimestamps := [] }

/-- A tracked `PoolClient` as the manager sees it: the
`CONNECTION_ID_SYMBOL` property, the backend `processID`, and whether the
`_originalQuery` / `_originalRelease` back-references are still installed. -/
structure Client where
  connectionId : Option Nat := none
  processID : Option Nat := none
  hasOriginalQuery : Bool := false
  hasOriginalRelease : Bool := false
deriving DecidableEq, Repr

/-- `addHistory` (ConnectionPoolManager.ts lines 147-157): push the entry,
then `shift()` one entry off the front when the 200-entry cap is exceeded. -/
def addHistory (m : PoolMetrics) (type : ConnEvent) (now : Nat)
    (connectionId : Option Nat) (durationMs : Option Nat) (error : Option String) :
    PoolMetrics :=
  let h := m.connectionHistory ++
    [{ type := type, timestamp := now, connectionId := connectionId,
       durationMs := durationMs, error := error }]
  { m with connectionHistory := if h.length > 200 then h.drop 1 else h }

/-- `connectionTimestamps.get(cid)` on the association list. -/
def lookupConn (ts : List (Nat × ConnInfo)) (cid : Nat) : Option ConnInfo :=
  (ts.find? (fun p => p.1 == cid)).map (fun p => p.2)

/-- `connectionTimestamps.delete(cid)` (keys are unique by construction). -/
def eraseConn (ts : List (Nat × ConnInfo)) (cid : Nat) : List (Nat × ConnInfo) :=
  ts.filter (fun p => p.1 != cid)

/-- What happened to the physical connection when a release ran:
`_originalRelease` was not called at all, or it recycled the client into the
idle pool, or it destroyed (discarded) it. -/
inductive ReleaseAction
  | noCall
  | recycled
  | discarded
deriving DecidableEq, Repr

/-- Observable effect of one `performClientRelease` call. -/
structure ReleaseEffect where
  physicalRelease : ReleaseAction
  timerCleared : Bool
deriving DecidableEq, Repr

/-- The untracked/already-processed branch of `performClientRelease`
(lines 320-334): a logged no-op on the metrics; `_originalRelease`, when
still present, is invoked with `errorIndication || forceDiscardOption`
(truthy argument discards the physical connection). -/
def untrackedRelease (s : CPMState) (c : Client) (errorIndication : Option String)
    (forceDiscardOption : Option Bool) : CPMState × Client × ReleaseEffect :=
  if c.hasOriginalRelease then
    let discard := errorIndication.isSome || forceDiscardOption == some true
    ({ s with poolCheckedOut := s.poolCheckedOut - 1 },
     { c with hasOriginalRelease := false },
     { physicalRelease := if discard then ReleaseAction.discarded else ReleaseAction.recycled,
       timerCleared := false })
  else
    (s, c, { physicalRelease := ReleaseAction.noCall, timerCleared := false })

/-- `performClientRelease(client, errorIndication?, forceDiscardOption?)`
(ConnectionPoolManager.ts lines 312-376).  Restores `_originalQuery`; on an
untracked client it is a logged no-op; on a tracked client it clears any
pending query-timeout timer, updates the release metrics
(`activeLeasedConnections` clamped at 0 by `Math.max`), records a
`released` / `client_error_released` history entry, removes the tracking
entry and the id symbol, and hands the physical client back to the pg pool,
discarding it when an error is indicated or discard is forced. -/
def performClientRelease (s : CPMState) (c0 : Client) (errorIndication : Option String)
    (forceDiscardOption : Option Bool) (now : Nat) : CPMState × Client × ReleaseEffect :=
  let c := { c0 with hasOriginalQuery := false }
  match c.connectionId with
  | none => untrackedRelease s c errorIndication forceDiscardOption
  | some cid =>
    match lookupConn s.connectionTimestamps cid with
    | none => untrackedRelease s c errorIndication forceDiscardOption
    | some info =>
      let durationMs := now - info.acquiredAt
      let m := { s.metrics with
        releasedConnections := s.metrics.releasedConnections + 1
        activeLeasedConnections := max 0 (s.metrics.activeLeasedConnections - 1)
        connectionDurations := s.metrics.connectionDurations ++ [durationMs] }
      let m := addHistory m
        (if errorIndication.isSome then ConnEvent.client_error_released else ConnEvent.released)
        now (some cid) (some durationMs) errorIndication
      let shouldDiscard := errorIndication.isSome || forceDiscardOption == some true
      ({ s with metrics := m
                connectionTimestamps := eraseConn s.connectionTimestamps cid
                poolCheckedOut :=
                  if c.hasOriginalRelease then s.poolCheckedOut - 1 else s.poolCheckedOut },
       { c with connectionId := none, hasOriginalRelease := false },
       { physicalRelease :=
           if c.hasOriginalRelease then
             (if shouldDiscard then ReleaseAction.discarded else ReleaseAction.recycled)
           else ReleaseAction.noCall,
         timerCleared := info.queryTimeoutTimer })

/-- `releaseConnection(client, options?)` (lines 378-388) forwards to
`performClientRelease`. -/
def releaseConnection (s : CPMState) (c : Client) (error : Option String)
    (forceDiscard : Option Bool) (now : Nat) : CPMState × Client × ReleaseEffect :=
  performClientRelease s c error forceDiscard now

/-- Outcome of the awaited calls inside `getConnection`: `pool.connect`
rejects; or it resolves (`newPhysical` = a brand-new physical connection was
established, firing the pool `connect` event) and a `SET TRANSACTION ...`
setup statement throws; or everything succeeds. -/
inductive AcquireEnv
  | connectFail (msg : String)
  | setupFail (pid : Option Nat) (newPhysical : Bool) (msg : String)
  | success (pid : Option Nat) (newPhysical : Bool)
deriving DecidableEq, Repr

/-- The `catch` block of `getConnection` (lines 289-309): increment
`failedAcquisitions`, record a `failed_acquire` entry, and rethrow as
`DatabaseConnectionError`. -/
def acquireFailurePath (s : CPMState) (cid now durationMs : Nat) (msg : String) :
    Except String Client × CPMState :=
  (Except.error (String.append "Failed to acquire connection: " msg),
   { s with metrics := (addHistory
       ({ s.metrics with failedAcquisitions := s.metrics.failedAcquisitions + 1 })
       ConnEvent.failed_acquire now (some cid) (some durationMs) (some msg)) })

/-- Success bookkeeping of `getConnection` (lines 174-192): count the
acquisition, bump the active-lease counter and its high-water mark, record
an `acquired` entry, and insert the lease into `connectionTimestamps`. -/
def acquireBookkeeping (s : CPMState) (cid : Nat) (pid : Option Nat) (newPhysical : Bool)
    (options : Option ConnectionOptions) (startTime now : Nat) : CPMState :=
  let m := { s.metrics with
    totalConnectionsCreated :=
      s.metrics.totalConnectionsCreated + (if newPhysical then 1 else 0)
    acquiredConnections := s.metrics.acquiredConnections + 1
    activeLeasedConnections := s.metrics.activeLeasedConnections + 1 }
  let m := if m.activeLeasedConnections > m.maxConcurrentLeasedConnections then
      { m with maxConcurrentLeasedConnections := m.activeLeasedConnections }
    else m
  let m := addHistory m ConnEvent.acquired now (some cid) (some (now - startTime)) none
  { s with metrics := m
           poolCheckedOut := s.poolCheckedOut + 1
           connectionTimestamps := s.connectionTimestamps ++
             [(cid, { acquiredAt := startTime, options := options, processID := pid,
                      queryTimeoutTimer := false })] }

/-- `getConnection(options?)` (ConnectionPoolManager.ts lines 159-310).
Modelled pg-pool behaviour (external dependency): `pool.connect()` hands out
a client only while fewer than `maxConnections` clients are checked out;
with the pool saturated the acquisition times out and rejects.  On a setup
statement failure after a successful connect, the code runs the same catch
block but the already-tracked client is not released (it stays checked out
and tracked). -/
def getConnection (s : CPMState) (options : Option ConnectionOptions)
    (env : AcquireEnv) (startTime now : Nat) : Except String Client × CPMState :=
  let cid := s.nextConnId
  let s0 := { s with nextConnId := s.nextConnId + 1 }
  match env with
  | AcquireEnv.connectFail msg => acquireFailurePath s0 cid now (now - startTime) msg
  | AcquireEnv.setupFail pid newPhysical msg =>
    if s0.poolCheckedOut < s0.maxConnections then
      let s1 := acquireBookkeeping s0 cid pid newPhysical options startTime now
      (Except.error (String.append "Failed to acquire connection: " msg),
       { s1 with metrics := (addHistory
           ({ s1.metrics with failedAcquisitions := s1.metrics.failedAcquisitions + 1 })
           ConnEvent.failed_acquire now (some cid) (some (now - startTime)) (some msg)) })
    else
      acquireFailurePath s0 cid now (now - startTime) "timeout exceeded when trying to connect"
  | AcquireEnv.success pid newPhysical =>
    if s0.poolCheckedOut < s0.maxConnections then
      (Except.ok { connectionId := some cid, processID := pid,
                   hasOriginalQuery := true, hasOriginalRelease := true },
       acquireBookkeeping s0 cid pid newPhysical options startTime now)
    else
      acquireFailurePath s0 cid now (now - startTime) "timeout exceeded when trying to connect"

/-- `resetMetrics()` (ConnectionPoolManager.ts lines 474-483). -/
def resetMetrics (s : CPMState) (now : Nat) : CPMState :=
  { s with metrics := { initializeMetrics now with
      maxConcurrentLeasedConnections := s.metrics.maxConcurrentLeasedConnections
      lastMetricsResetTime := now } }

/-- Storing / clearing the deadline timer on the tracked entry for `cid`
(`connectionDetails.queryTimeoutTimer = ...`). -/
def setTimerFlag (ts : List (Nat × ConnInfo)) (cid : Nat) (b : Bool) :
    List (Nat × ConnInfo) :=
  ts.map (fun p => if p.1 == cid then (p.1, { p.2 with queryTimeoutTimer := b }) else p)

/-- Which side of the race between the in-flight query and its deadline
timer won. -/
inductive QueryRace
  | completed (ok : Bool)
  | timedOut (cancelOk : Bool)
deriving DecidableEq, Repr

/-- Observable effects of one wrapped `client.query(...)` call. -/
structure QueryEffects where
  errorEventEmitted : Bool
  cancellationAttempts : Nat
  physicalRelease : ReleaseAction
deriving DecidableEq, Repr

/-- The wrapped `client.query` installed by `getConnection` (lines 227-277),
raced against its deadline timer.  On entry any prior pending timer is
cleared and a fresh one armed.  If the query settles first (success or
failure) the `then`/`catch` continuation clears the timer and nothing else
happens.  If the timer fires first: an `error` event is emitted on the pool;
when the backend `processID` is known exactly one best-effort
`pg_cancel_backend` attempt is made on a short-lived helper connection
(released regardless of outcome, so net-neutral on the pool state); then the
handle is force-released with a timeout error via `performClientRelease`.
The wrapper only exists while the client is tracked (release restores
`_originalQuery`). -/
def runWrappedQuery (s : CPMState) (c : Client) (race : QueryRace) (now : Nat) :
    CPMState × Client × QueryEffects :=
  match c.connectionId with
  | none =>
    (s, c, { errorEventEmitted := false, cancellationAttempts := 0,
             physicalRelease := ReleaseAction.noCall })
  | some cid =>
    let s1 := { s with connectionTimestamps := setTimerFlag s.connectionTimestamps cid true }
    match race with
    | QueryRace.completed _ =>
      ({ s1 with connectionTimestamps := setTimerFlag s1.connectionTimestamps cid false },
       c,
       { errorEventEmitted := false, cancellationAttempts := 0,
         physicalRelease := ReleaseAction.noCall })
    | QueryRace.timedOut _ =>
      let attempts := if c.processID.isSome then 1 else 0
      let r := performClientRelease s1 c
        (some "Query timed out after 10000ms. Cancellation attempted.") none now
      (r.1, r.2.1,
       { errorEventEmitted := true, cancellationAttempts := attempts,
         physicalRelease := r.2.2.physicalRelease })

/-- The client object a caller can present for release under the
acquire/release discipline: tracked clients still carry their id symbol and
original-release back-reference; a client whose lease was already processed
has both removed. -/
def clientFor (s : CPMState) (cid : Nat) (pid : Option Nat) : Client :=
  if (lookupConn s.connectionTimestamps cid).isSome then
    { connectionId := some cid, processID := pid,
      hasOriginalQuery := true, hasOriginalRelease := true }
  else
    { connectionId := none, processID := pid,
      hasOriginalQuery := false, hasOriginalRelease := false }

/-- One completed acquire or release operation on the pool manager. -/
inductive PoolOp
  | acquire (options : Option ConnectionOptions) (env : AcquireEnv) (startTime now : Nat)
  | release (cid : Nat) (error : Option String) (forceDiscard : Option Bool) (now : Nat)
deriving DecidableEq, Repr

/-- State after one completed pool operation. -/
def poolStep (s : CPMState) : PoolOp → CPMState
  | PoolOp.acquire options env startTime now => (getConnection s options env startTime now).2
  | PoolOp.release cid e f now => (performClientRelease s (clientFor s cid none) e f now).1

/-- State after a sequence of completed pool operations. -/
def poolRun (s : CPMState) : List PoolOp → CPMState
  | [] => s
  | op :: ops => poolRun (poolStep s op) ops

/-- Whether the manager currently tracks the client's lease: the client still
carries its id symbol and the id is in `connectionTimestamps`. -/
def isTracked (s : CPMState) (c : Client) : Bool :=
  match c.connectionId with
  | none => false
  | some cid => (lookupConn s.connectionTimestamps cid).isSome

/-- The balance the transaction counters actually maintain: every completed
transaction was either committed or rolled back. -/
def txnCountsBalanced (m : TxnMetrics) : Prop :=
  m.committedTransactions + m.rolledBackTransactions = m.completedTransactions

/-- Safety invariant of the lease manager under the acquire/release
discipline: the lease counter mirrors the tracking table, tracked leases are
checked-out physical clients, the pg pool caps those at the configured
maximum, and tracking keys are distinct and below the id counter. -/
def PoolInv (maxC : Nat) (s : CPMState) : Prop :=
  s.metrics.activeLeasedConnections = (s.connectionTimestamps.length : Int) ∧
  s.connectionTimestamps.length ≤ s.poolCheckedOut ∧
  s.poolCheckedOut ≤ maxC ∧
  s.maxConnections = maxC ∧
  (s.connectionTimestamps.map Prod.fst).Nodup ∧
  (∀ p ∈ s.connectionTimestamps, p.1 < s.nextConnId)

/-- A manager with one transaction begun successfully (client id 7): the
state reached by `beginTransaction` from a fresh manager. -/
def tmActiveSample : TMState :=
  tmStep (initTM 0 0) (TMOp.beginTxn 1 0 none (BeginEnv.success 7))

/-- A pool manager (capacity 2) holding one tracked lease, reached by a
successful `getConnection`. -/
def poolSample : CPMState :=
  (getConnection (initCPM 2 0) none (AcquireEnv.success (some 42) true) 0 1).2

/-- The client handle returned by the acquisition that produced
`poolSample`. -/
def poolClientSample : Client :=
  { connectionId := some 0, processID := some 42,
    hasOriginalQuery := true, hasOriginalRelease := true }

/-- The tracking entry of `poolSample` for `poolClientSample`. -/
def poolInfoSample : ConnInfo :=
  { acquiredAt := 0, options := none, processID := some 42, queryTimeoutTimer := false }

/-! ## Helper lemmas: TransactionManager -/

theorem releaseClient_committed (s : TMState) :
    (releaseClient s).metrics.committedTransactions = s.metrics.committedTransactions := by
  unfold releaseClient; split; · rfl
  split <;> rfl

theorem releaseClient_rolledBack (s : TMState) :
    (releaseClient s).metrics.rolledBackTransactions = s.metrics.rolledBackTransactions := by
  unfold releaseClient; split; · rfl
  split <;> rfl

theorem releaseClient_completed (s : TMState) :
    (releaseClient s).metrics.completedTransactions = s.metrics.completedTransactions := by
  unfold releaseClient; split; · rfl
  split <;> rfl

theorem beginCatch_committed (s : TMState) (tid now : Nat) (msg : String) :
    (beginCatch s tid now msg).metrics.committedTransactions
      = s.metrics.committedTransactions := by
  unfold beginCatch; dsimp only; split
  · rw [releaseClient_committed]
  · rfl

theorem beginCatch_rolledBack (s : TMState) (tid now : Nat) (msg : String) :
    (beginCatch s tid now msg).metrics.rolledBackTransactions
      = s.metrics.rolledBackTransactions := by
  unfold beginCatch; dsimp only; split
  · rw [releaseClient_rolledBack]
  · rfl

theorem beginCatch_completed (s : TMState) (tid now : Nat) (msg : String) :
    (beginCatch s tid now msg).metrics.completedTransactions
      = s.metrics.completedTransactions := by
  unfold beginCatch; dsimp only; split
  · rw [releaseClient_completed]
  · rfl

/-- Every single completed operation preserves
`committed + rolled_back = completed`. -/
theorem tmStep_balanced (s : TMState) (op : TMOp) (h : txnCountsBalanced s.metrics) :
    txnCountsBalanced (tmStep s op).metrics := by
  unfold txnCountsBalanced at h ⊢
  cases op with
  | beginTxn tid now o env =>
    unfold tmStep beginTransaction
    dsimp only
    split
    · exact h
    · cases env <;> dsimp only
      · rw [beginCatch_committed, beginCatch_rolledBack, beginCatch_completed]; exact h
      · rw [beginCatch_committed, beginCatch_rolledBack, beginCatch_completed]; exact h
      · exact h
  | commitTxn now e =>
    unfold tmStep commit
    dsimp only
    split
    · exact h
    · cases e <;> dsimp only
      · rw [releaseClient_committed, releaseClient_rolledBack, releaseClient_completed]
        show (commitSuccessHistory _ _ _ _).committedTransactions + _ = _
        simp only [commitSuccessHistory]
        omega
      · rw [releaseClient_committed, releaseClient_rolledBack, releaseClient_completed]
        exact h
  | rollbackTxn now e =>
    unfold tmStep rollback
    dsimp only
    split
    · exact h
    · cases e <;> dsimp only
      · rw [releaseClient_committed, releaseClient_rolledBack, releaseClient_completed]
        simp only [rollbackSuccessHistory]
        omega
      · rw [releaseClient_committed, releaseClient_rolledBack, releaseClient_completed]
        exact h

theorem tmRun_balanced (s : TMState) (ops : List TMOp) (h : txnCountsBalanced s.metrics) :
    txnCountsBalanced (tmRun s ops).metrics := by
  induction ops generalizing s with
  | nil => exact h
  | cons op ops ih => exact ih _ (tmStep_balanced s op h)

theorem releaseClient_releases (s : TMState) (c : Nat) (hc : s.client = some c) :
    (releaseClient s).clientReleaseCalls = s.clientReleaseCalls + 1 ∧
    (releaseClient s).client = none ∧
    (releaseClient s).isTransactionActive = false := by
  unfold releaseClient; rw [hc]; exact ⟨rfl, rfl, rfl⟩

/-! ## Claim theorems: TransactionManager -/

/-- C1 (counterexample): on a manager with an active transaction
(`requestId = 1`), a rejected second `beginTransaction` does fail with the
transaction-already-active error, yet the stored transaction id is changed
by the rejected call (overwritten to the new attempt's id before the active
check), so the claim's list of untouched state is false as stated. -/
theorem beginTransaction_while_active_counterexample :
    (beginTransaction tmActiveSample 2 5 none (BeginEnv.acquireFail "boom")).1
      = Except.error "Transaction already in progress" ∧
    ¬ ((beginTransaction tmActiveSample 2 5 none (BeginEnv.acquireFail "boom")).2.requestId
      = tmActiveSample.requestId) ∧
    ¬ ((beginTransaction tmActiveSample 2 5 none (BeginEnv.acquireFail "boom")).2.metrics.failedTransactions
      = tmActiveSample.metrics.failedTransactions) := by decide

/-- C1 (amended): a second `beginTransaction` while active always fails with
the transaction-already-active error; it leaves the active flag, held
client, start time and release count untouched and only appends a failed
history entry (capped at 100) and bumps `failedTransactions` — but it
overwrites the manager's stored transaction id and current transaction
options with the rejected attempt's values. -/
theorem beginTransaction_while_active_spec (s : TMState) (transactionId now : Nat)
    (options : Option TxnOptions) (env : BeginEnv) (h : s.isTransactionActive = true) :
    beginTransaction s transactionId now options env =
      (Except.error "Transaction already in progress",
       { s with requestId := transactionId
                currentTransactionOptions := options
                metrics := { s.metrics with
                  failedTransactions := s.metrics.failedTransactions + 1
                  transactionHistory := capTxnHistory (s.metrics.transactionHistory
                    ++ [alreadyActiveEntry transactionId now options]) } }) := by
  unfold beginTransaction
  dsimp only
  rw [h]
  rfl

/-- C1 (witness): the amended statement instantiated on a concrete active
manager. -/
theorem beginTransaction_while_active_spec_witness :
    tmActiveSample.isTransactionActive = true ∧
    beginTransaction tmActiveSample 2 5 none (BeginEnv.acquireFail "boom") =
      (Except.error "Transaction already in progress",
       { tmActiveSample with requestId := 2
                             currentTransactionOptions := none
                             metrics := { tmActiveSample.metrics with
                               failedTransactions := tmActiveSample.metrics.failedTransactions + 1
                               transactionHistory := capTxnHistory (tmActiveSample.metrics.transactionHistory
                                 ++ [alreadyActiveEntry 2 5 none]) } }) :=
  ⟨by decide,
   beginTransaction_while_active_spec tmActiveSample 2 5 none (BeginEnv.acquireFail "boom") (by decide)⟩

/-- C2 (counterexample): after `commit()` on an idle manager,
`committed + rolled_back + failed = 1` but `completed = 0`, so the claimed
equation fails at this observation point. -/
theorem metrics_sum_with_failed_counterexample :
    ¬ ((tmRun (initTM 0 0) [TMOp.commitTxn 1 none]).metrics.committedTransactions
       + (tmRun (initTM 0 0) [TMOp.commitTxn 1 none]).metrics.rolledBackTransactions
       + (tmRun (initTM 0 0) [TMOp.commitTxn 1 none]).metrics.failedTransactions
       = (tmRun (initTM 0 0) [TMOp.commitTxn 1 none]).metrics.completedTransactions) := by decide

/-- C2 (amended): at every observation point between operations — after any
sequence of completed `beginTransaction` / `commit` / `rollback` calls from
a fresh manager — `committedTransactions + rolledBackTransactions =
completedTransactions`; failed transactions are counted separately and never
increment the completed counter. -/
theorem metrics_committed_add_rolledBack_eq_completed (requestId now : Nat)
    (ops : List TMOp) :
    (tmRun (initTM requestId now) ops).metrics.committedTransactions
      + (tmRun (initTM requestId now) ops).metrics.rolledBackTransactions
      = (tmRun (initTM requestId now) ops).metrics.completedTransactions :=
  tmRun_balanced _ ops rfl

/-- C3 (code bug): when acquisition (or a setup statement) fails during
`beginTransaction`, the manager does return to idle with the handle
released, and `failedTransactions` is incremented — but no history entry is
ever marked `failed`: the catch block looks up an entry with the new
transaction id, and such an entry is only pushed on the success path, so the
lookup always misses and the history stays empty. -/
theorem begin_failure_history_not_marked :
    ((beginTransaction (initTM 0 0) 1 2 none (BeginEnv.acquireFail "pool exhausted")).1
       = Except.error "pool exhausted") ∧
    (beginTransaction (initTM 0 0) 1 2 none
       (BeginEnv.acquireFail "pool exhausted")).2.metrics.failedTransactions = 1 ∧
    (beginTransaction (initTM 0 0) 1 2 none
       (BeginEnv.acquireFail "pool exhausted")).2.metrics.transactionHistory = [] ∧
    (beginTransaction (initTM 0 0) 1 2 none
       (BeginEnv.acquireFail "pool exhausted")).2.isTransactionActive = false ∧
    (beginTransaction (initTM 0 0) 1 2 none
       (BeginEnv.acquireFail "pool exhausted")).2.client = none ∧
    (beginTransaction (initTM 0 0) 1 2 none
       (BeginEnv.setupFail 7 "connection terminated")).2.clientReleaseCalls = 1 ∧
    (beginTransaction (initTM 0 0) 1 2 none
       (BeginEnv.setupFail 7 "connection terminated")).2.metrics.transactionHistory = [] ∧
    (beginTransaction (initTM 0 0) 1 2 none
       (BeginEnv.setupFail 7 "connection terminated")).2.client = none ∧
    (beginTransaction (initTM 0 0) 1 2 none
       (BeginEnv.setupFail 7 "connection terminated")).2.isTransactionActive = false := by
  decide

/-- C6: `commit()` and `rollback()` on an active transaction release the
held client exactly once — whether the `COMMIT`/`ROLLBACK` statement
succeeds (`queryError = none`) or throws (`queryError = some msg`) — and
return the manager to idle (client cleared, active flag false). -/
theorem commit_rollback_release_exactly_once (s : TMState) (now : Nat)
    (queryError : Option String) (c : Nat)
    (hA : s.isTransactionActive = true) (hc : s.client = some c) :
    ((commit s now queryError).2.clientReleaseCalls = s.clientReleaseCalls + 1 ∧
     (commit s now queryError).2.client = none ∧
     (commit s now queryError).2.isTransactionActive = false) ∧
    ((rollback s now queryError).2.clientReleaseCalls = s.clientReleaseCalls + 1 ∧
     (rollback s now queryError).2.client = none ∧
     (rollback s now queryError).2.isTransactionActive = false) := by
  unfold commit rollback
  rw [hA, hc]
  dsimp only
  cases queryError <;> dsimp only
  · exact ⟨releaseClient_releases _ c rfl, releaseClient_releases _ c rfl⟩
  · exact ⟨releaseClient_releases _ c rfl, releaseClient_releases _ c rfl⟩

/-- C6 (witness): the release-exactly-once property on a concrete active
manager holding client 7. -/
theorem commit_rollback_release_exactly_once_witness :
    tmActiveSample.isTransactionActive = true ∧ tmActiveSample.client = some 7 ∧
    (((commit tmActiveSample 3 none).2.clientReleaseCalls
        = tmActiveSample.clientReleaseCalls + 1 ∧
      (commit tmActiveSample 3 none).2.client = none ∧
      (commit tmActiveSample 3 none).2.isTransactionActive = false) ∧
     ((rollback tmActiveSample 3 none).2.clientReleaseCalls
        = tmActiveSample.clientReleaseCalls + 1 ∧
      (rollback tmActiveSample 3 none).2.client = none ∧
      (rollback tmActiveSample 3 none).2.isTransactionActive = false)) :=
  ⟨by decide, by decide,
   commit_rollback_release_exactly_once tmActiveSample 3 none 7 (by decide) (by decide)⟩

/-- C8: `rollback()` on an idle manager (no active transaction) returns
normally and leaves the entire state — metrics included — unchanged. -/
theorem rollback_idle_noop (s : TMState) (now : Nat) (queryError : Option String)
    (h : s.isTransactionActive = false) :
    rollback s now queryError = (Except.ok (), s) := by
  unfold rollback; rw [h]; rfl

/-- C8 (witness): idle rollback on a fresh manager. -/
theorem rollback_idle_noop_witness :
    (initTM 0 0).isTransactionActive = false ∧
    rollback (initTM 0 0) 1 none = (Except.ok (), initTM 0 0) :=
  ⟨by decide, rollback_idle_noop (initTM 0 0) 1 none (by decide)⟩

/-- C9: `commit()` on an idle manager throws the no-active-transaction
error and increments `failedTransactions` (changing nothing else), unlike
`rollback()` on the same state, which changes nothing at all. -/
theorem commit_idle_increments_failed (s : TMState) (now : Nat)
    (queryError : Option String) (h : s.isTransactionActive = false) :
    (commit s now queryError).1 = Except.error "No active transaction to commit" ∧
    (commit s now queryError).2 = { s with metrics := { s.metrics with
        failedTransactions := s.metrics.failedTransactions + 1 } } ∧
    (rollback s now queryError).2 = s := by
  unfold commit rollback; rw [h]; exact ⟨rfl, rfl, rfl⟩

/-- C9 (witness): idle commit on a fresh manager. -/
theorem commit_idle_increments_failed_witness :
    (initTM 0 0).isTransactionActive = false ∧
    ((commit (initTM 0 0) 1 none).1 = Except.error "No active transaction to commit" ∧
     (commit (initTM 0 0) 1 none).2 = { initTM 0 0 with metrics := { (initTM 0 0).metrics with
         failedTransactions := (initTM 0 0).metrics.failedTransactions + 1 } } ∧
     (rollback (initTM 0 0) 1 none).2 = initTM 0 0) :=
  ⟨by decide, commit_idle_increments_failed (initTM 0 0) 1 none (by decide)⟩

/-! ## Helper lemmas: ConnectionPoolManager -/

theorem performClientRelease_untracked (s : CPMState) (c : Client)
    (e : Option String) (f : Option Bool) (n : Nat)
    (hu : isTracked s c = false) :
    performClientRelease s c e f n
      = untrackedRelease s { c with hasOriginalQuery := false } e f := by
  unfold performClientRelease
  unfold isTracked at hu
  cases hc : c.connectionId with
  | none => rfl
  | some cid =>
    dsimp only at hu ⊢
    cases hl : lookupConn s.connectionTimestamps cid with
    | none => dsimp only
    | some info => rw [hc] at hu; dsimp only at hu; rw [hl] at hu; simp at hu

theorem performClientRelease_tracked (s : CPMState) (c : Client) (cid : Nat) (info : ConnInfo)
    (e : Option String) (f : Option Bool) (n : Nat)
    (hcid : c.connectionId = some cid)
    (hl : lookupConn s.connectionTimestamps cid = some info) :
    performClientRelease s c e f n =
      ({ s with
         metrics := addHistory
           ({ s.metrics with
              releasedConnections := s.metrics.releasedConnections + 1
              activeLeasedConnections := max 0 (s.metrics.activeLeasedConnections - 1)
              connectionDurations := s.metrics.connectionDurations ++ [n - info.acquiredAt] })
           (if e.isSome then ConnEvent.client_error_released else ConnEvent.released)
           n (some cid) (some (n - info.acquiredAt)) e
         connectionTimestamps := eraseConn s.connectionTimestamps cid
         poolCheckedOut := if c.hasOriginalRelease then s.poolCheckedOut - 1 else s.poolCheckedOut },
       { c with hasOriginalQuery := false, connectionId := none, hasOriginalRelease := false },
       { physicalRelease :=
           if c.hasOriginalRelease then
             (if e.isSome || f == some true then ReleaseAction.discarded else ReleaseAction.recycled)
           else ReleaseAction.noCall,
         timerCleared := info.queryTimeoutTimer }) := by
  unfold performClientRelease
  dsimp only
  rw [hcid]
  dsimp only
  rw [hl]

theorem eraseConn_of_not_mem (ts : List (Nat × ConnInfo)) (cid : Nat)
    (h : ∀ p ∈ ts, p.1 ≠ cid) : eraseConn ts cid = ts := by
  unfold eraseConn
  exact List.filter_eq_self.mpr (fun p hp => by simpa using h p hp)

theorem lookupConn_length_pos (ts : List (Nat × ConnInfo)) (cid : Nat)
    (h : (lookupConn ts cid).isSome) : 0 < ts.length := by
  cases ts with
  | nil => simp [lookupConn] at h
  | cons a l => simp

theorem eraseConn_length (ts : List (Nat × ConnInfo)) (cid : Nat)
    (hnd : (ts.map Prod.fst).Nodup) (hm : (lookupConn ts cid).isSome) :
    (eraseConn ts cid).length + 1 = ts.length := by
  induction ts with
  | nil => simp [lookupConn] at hm
  | cons a l ih =>
    rw [List.map_cons, List.nodup_cons] at hnd
    by_cases hc : a.1 = cid
    · have hrest : ∀ p ∈ l, p.1 ≠ cid := by
        intro p hp he
        exact hnd.1 (hc ▸ he ▸ List.mem_map_of_mem Prod.fst hp)
      have h1 : eraseConn (a :: l) cid = eraseConn l cid := by
        unfold eraseConn
        rw [List.filter_cons]
        simp [hc]
      rw [h1, eraseConn_of_not_mem l cid hrest]
      simp
    · have hbe : (a.1 == cid) = false := by simp [hc]
      have hm' : (lookupConn l cid).isSome := by
        unfold lookupConn at hm ⊢
        rw [List.find?_cons, hbe] at hm
        exact hm
      have h2 : eraseConn (a :: l) cid = a :: eraseConn l cid := by
        unfold eraseConn
        rw [List.filter_cons]
        simp [hc]
      rw [h2]
      have := ih hnd.2 hm'
      simp only [List.length_cons]
      omega

theorem eraseConn_nodup (ts : List (Nat × ConnInfo)) (cid : Nat)
    (hnd : (ts.map Prod.fst).Nodup) : ((eraseConn ts cid).map Prod.fst).Nodup :=
  List.Nodup.sublist (List.Sublist.map Prod.fst (List.filter_sublist ts)) hnd

theorem eraseConn_mem (ts : List (Nat × ConnInfo)) (cid : Nat) (p : Nat × ConnInfo)
    (h : p ∈ eraseConn ts cid) : p ∈ ts :=
  List.mem_of_mem_filter h

theorem lookupConn_eraseConn_self (ts : List (Nat × ConnInfo)) (cid : Nat) :
    lookupConn (eraseConn ts cid) cid = none := by
  induction ts with
  | nil => rfl
  | cons a l ih =>
    by_cases hc : a.1 = cid
    · simpa [eraseConn, List.filter_cons, hc] using ih
    · unfold eraseConn lookupConn at ih ⊢
      simp only [List.filter_cons]
      simp [hc, List.find?_cons, ih]

theorem lookupConn_setTimerFlag_self (ts : List (Nat × ConnInfo)) (cid : Nat) (b : Bool) :
    lookupConn (setTimerFlag ts cid b) cid
      = (lookupConn ts cid).map (fun i => { i with queryTimeoutTimer := b }) := by
  induction ts with
  | nil => rfl
  | cons a l ih =>
    unfold setTimerFlag lookupConn at ih ⊢
    by_cases hc : a.1 = cid
    · simp [List.find?_cons, hc]
    · simpa [List.find?_cons, hc] using ih

theorem addHistory_getLast (m : PoolMetrics) (t : ConnEvent) (now : Nat)
    (cid : Option Nat) (d : Option Nat) (e : Option String) :
    (addHistory m t now cid d e).connectionHistory.getLast? =
      some { type := t, timestamp := now, connectionId := cid, durationMs := d, error := e } := by
  unfold addHistory
  dsimp only
  split
  · next hlen =>
    rw [List.drop_append_eq_append_drop]
    have h1 : 0 < m.connectionHistory.length := by
      simp at hlen; omega
    have h2 : 1 - m.connectionHistory.length = 0 := by omega
    rw [h2]
    simp [List.getLast?_concat]
  · exact List.getLast?_concat _

theorem acquireBookkeeping_active (s : CPMState) (cid : Nat) (pid : Option Nat)
    (np : Bool) (o : Option ConnectionOptions) (st n : Nat) :
    (acquireBookkeeping s cid pid np o st n).metrics.activeLeasedConnections
      = s.metrics.activeLeasedConnections + 1 := by
  unfold acquireBookkeeping addHistory
  dsimp only
  split <;> rfl

theorem acquireBookkeeping_timestamps (s : CPMState) (cid : Nat) (pid : Option Nat)
    (np : Bool) (o : Option ConnectionOptions) (st n : Nat) :
    (acquireBookkeeping s cid pid np o st n).connectionTimestamps
      = s.connectionTimestamps ++
        [(cid, { acquiredAt := st, options := o, processID := pid,
                 queryTimeoutTimer := false })] := rfl

theorem acquireBookkeeping_checkedOut (s : CPMState) (cid : Nat) (pid : Option Nat)
    (np : Bool) (o : Option ConnectionOptions) (st n : Nat) :
    (acquireBookkeeping s cid pid np o st n).poolCheckedOut = s.poolCheckedOut + 1 := rfl

theorem acquireBookkeeping_max (s : CPMState) (cid : Nat) (pid : Option Nat)
    (np : Bool) (o : Option ConnectionOptions) (st n : Nat) :
    (acquireBookkeeping s cid pid np o st n).maxConnections = s.maxConnections := rfl

theorem acquireBookkeeping_nextConnId (s : CPMState) (cid : Nat) (pid : Option Nat)
    (np : Bool) (o : Option ConnectionOptions) (st n : Nat) :
    (acquireBookkeeping s cid pid np o st n).nextConnId = s.nextConnId := rfl

theorem poolInv_acquireBookkeeping (maxC : Nat) (s : CPMState) (pid : Option Nat) (np : Bool)
    (o : Option ConnectionOptions) (st n : Nat)
    (hcap : s.poolCheckedOut < s.maxConnections) (h : PoolInv maxC s) :
    PoolInv maxC
      (acquireBookkeeping { s with nextConnId := s.nextConnId + 1 } s.nextConnId pid np o st n) := by
  obtain ⟨h1, h2, h3, hmx, h4, h5⟩ := h
  have hfresh : s.nextConnId ∉ s.connectionTimestamps.map Prod.fst := by
    intro hmem
    obtain ⟨p, hp, hpe⟩ := List.mem_map.mp hmem
    exact absurd (hpe ▸ h5 p hp) (lt_irrefl _)
  refine ⟨?_, ?_, ?_, ?_, ?_, ?_⟩
  · rw [acquireBookkeeping_active, acquireBookkeeping_timestamps]
    show s.metrics.activeLeasedConnections + 1 = _
    rw [List.length_append]
    simp only [List.length_singleton]
    push_cast
    omega
  · rw [acquireBookkeeping_timestamps, acquireBookkeeping_checkedOut]
    show _ ≤ s.poolCheckedOut + 1
    rw [List.length_append]
    simp only [List.length_singleton]
    omega
  · rw [acquireBookkeeping_checkedOut]
    show s.poolCheckedOut + 1 ≤ maxC
    omega
  · rw [acquireBookkeeping_max]
    exact hmx
  · rw [acquireBookkeeping_timestamps]
    rw [List.map_append]
    refine List.Nodup.append h4 (List.nodup_singleton _) ?_
    intro a ha hb
    simp only [List.map_cons, List.map_nil, List.mem_singleton] at hb
    exact hfresh (hb ▸ ha)
  · rw [acquireBookkeeping_timestamps, acquireBookkeeping_nextConnId]
    intro p hp
    rcases List.mem_append.mp hp with hmem | hmem
    · exact Nat.lt_succ_of_lt (h5 p hmem)
    · simp only [List.mem_singleton] at hmem
      subst hmem
      exact Nat.lt_succ_self _

theorem poolInv_of_frame (maxC : Nat) (s s' : CPMState)
    (hts : s'.connectionTimestamps = s.connectionTimestamps)
    (ha : s'.metrics.activeLeasedConnections = s.metrics.activeLeasedConnections)
    (hco : s'.poolCheckedOut = s.poolCheckedOut)
    (hm : s'.maxConnections = s.maxConnections)
    (hn : s.nextConnId ≤ s'.nextConnId)
    (h : PoolInv maxC s) : PoolInv maxC s' := by
  obtain ⟨h1, h2, h3, hmx, h4, h5⟩ := h
  refine ⟨?_, ?_, ?_, ?_, ?_, ?_⟩
  · rw [hts, ha]; exact h1
  · rw [hts, hco]; exact h2
  · rw [hco]; exact h3
  · rw [hm]; exact hmx
  · rw [hts]; exact h4
  · rw [hts]; intro p hp; exact lt_of_lt_of_le (h5 p hp) hn

theorem getConnection_connectFail (s : CPMState) (o : Option ConnectionOptions)
    (msg : String) (st n : Nat) :
    getConnection s o (AcquireEnv.connectFail msg) st n
      = acquireFailurePath { s with nextConnId := s.nextConnId + 1 } s.nextConnId n (n - st) msg := rfl

theorem getConnection_success_pos (s : CPMState) (o : Option ConnectionOptions)
    (pid : Option Nat) (np : Bool) (st n : Nat)
    (hcap : s.poolCheckedOut < s.maxConnections) :
    getConnection s o (AcquireEnv.success pid np) st n
      = (Except.ok { connectionId := some s.nextConnId, processID := pid,
                     hasOriginalQuery := true, hasOriginalRelease := true },
         acquireBookkeeping { s with nextConnId := s.nextConnId + 1 } s.nextConnId pid np o st n) := by
  unfold getConnection
  dsimp only
  rw [if_pos hcap]

theorem getConnection_success_neg (s : CPMState) (o : Option ConnectionOptions)
    (pid : Option Nat) (np : Bool) (st n : Nat)
    (hcap : ¬ s.poolCheckedOut < s.maxConnections) :
    getConnection s o (AcquireEnv.success pid np) st n
      = acquireFailurePath { s with nextConnId := s.nextConnId + 1 } s.nextConnId n (n - st)
          "timeout exceeded when trying to connect" := by
  unfold getConnection
  dsimp only
  rw [if_neg hcap]

theorem getConnection_setupFail_pos (s : CPMState) (o : Option ConnectionOptions)
    (pid : Option Nat) (np : Bool) (msg : String) (st n : Nat)
    (hcap : s.poolCheckedOut < s.maxConnections) :
    getConnection s o (AcquireEnv.setupFail pid np msg) st n
      = (Except.error (String.append "Failed to acquire connection: " msg),
         { acquireBookkeeping { s with nextConnId := s.nextConnId + 1 } s.nextConnId pid np o st n with
           metrics := (addHistory
             ({ (acquireBookkeeping { s with nextConnId := s.nextConnId + 1 }
                   s.nextConnId pid np o st n).metrics with
                failedAcquisitions := (acquireBookkeeping { s with nextConnId := s.nextConnId + 1 }
                   s.nextConnId pid np o st n).metrics.failedAcquisitions + 1 })
             ConnEvent.failed_acquire n (some s.nextConnId) (some (n - st)) (some msg)) }) := by
  unfold getConnection
  dsimp only
  rw [if_pos hcap]

theorem getConnection_setupFail_neg (s : CPMState) (o : Option ConnectionOptions)
    (pid : Option Nat) (np : Bool) (msg : String) (st n : Nat)
    (hcap : ¬ s.poolCheckedOut < s.maxConnections) :
    getConnection s o (AcquireEnv.setupFail pid np msg) st n
      = acquireFailurePath { s with nextConnId := s.nextConnId + 1 } s.nextConnId n (n - st)
          "timeout exceeded when trying to connect" := by
  unfold getConnection
  dsimp only
  rw [if_neg hcap]

theorem poolStep_release_tracked (maxC : Nat) (s : CPMState) (cid : Nat) (info : ConnInfo)
    (e : Option String) (f : Option Bool) (n : Nat)
    (hl : lookupConn s.connectionTimestamps cid = some info) (h : PoolInv maxC s) :
    PoolInv maxC (performClientRelease s (clientFor s cid none) e f n).1 := by
  obtain ⟨h1, h2, h3, hmx, h4, h5⟩ := h
  have hcf : clientFor s cid none =
      { connectionId := some cid, processID := none,
        hasOriginalQuery := true, hasOriginalRelease := true } := by
    unfold clientFor
    rw [hl]
    rfl
  rw [hcf, performClientRelease_tracked s _ cid info e f n rfl hl]
  have hlen := eraseConn_length s.connectionTimestamps cid h4 (by rw [hl]; rfl)
  have hpos : 0 < s.connectionTimestamps.length := lookupConn_length_pos _ _ (by rw [hl]; rfl)
  refine ⟨?_, ?_, ?_, ?_, ?_, ?_⟩
  · show max 0 (s.metrics.activeLeasedConnections - 1)
        = ((eraseConn s.connectionTimestamps cid).length : Int)
    rw [h1]
    rw [max_eq_right (by omega : (0:Int) ≤ (s.connectionTimestamps.length : Int) - 1)]
    omega
  · show (eraseConn s.connectionTimestamps cid).length ≤ s.poolCheckedOut - 1
    omega
  · show s.poolCheckedOut - 1 ≤ maxC
    omega
  · exact hmx
  · exact eraseConn_nodup _ _ h4
  · intro p hp
    exact h5 p (eraseConn_mem _ _ _ hp)

theorem poolStep_inv (maxC : Nat) (s : CPMState) (op : PoolOp) (h : PoolInv maxC s) :
    PoolInv maxC (poolStep s op) := by
  cases op with
  | acquire o env st n =>
    show PoolInv maxC (getConnection s o env st n).2
    cases env with
    | connectFail msg =>
      rw [getConnection_connectFail]
      exact poolInv_of_frame maxC s _ rfl rfl rfl rfl (Nat.le_succ _) h
    | setupFail pid np msg =>
      by_cases hcap : s.poolCheckedOut < s.maxConnections
      · rw [getConnection_setupFail_pos s o pid np msg st n hcap]
        exact poolInv_of_frame maxC _ _ rfl rfl rfl rfl (le_refl _)
          (poolInv_acquireBookkeeping maxC s pid np o st n hcap h)
      · rw [getConnection_setupFail_neg s o pid np msg st n hcap]
        exact poolInv_of_frame maxC s _ rfl rfl rfl rfl (Nat.le_succ _) h
    | success pid np =>
      by_cases hcap : s.poolCheckedOut < s.maxConnections
      · rw [getConnection_success_pos s o pid np st n hcap]
        exact poolInv_acquireBookkeeping maxC s pid np o st n hcap h
      · rw [getConnection_success_neg s o pid np st n hcap]
        exact poolInv_of_frame maxC s _ rfl rfl rfl rfl (Nat.le_succ _) h
  | release cid e f n =>
    show PoolInv maxC (performClientRelease s (clientFor s cid none) e f n).1
    cases hl : lookupConn s.connectionTimestamps cid with
    | some info => exact poolStep_release_tracked maxC s cid info e f n hl h
    | none =>
      have hcf : clientFor s cid none =
          { connectionId := none, processID := none,
            hasOriginalQuery := false, hasOriginalRelease := false } := by
        unfold clientFor
        rw [hl]
        rfl
      rw [hcf]
      exact h

theorem poolRun_inv (maxC : Nat) (s : CPMState) (ops : List PoolOp)
    (h : PoolInv maxC s) : PoolInv maxC (poolRun s ops) := by
  induction ops generalizing s with
  | nil => exact h
  | cons op ops ih => exact ih _ (poolStep_inv maxC s op h)

theorem poolInv_init (maxC now : Nat) : PoolInv maxC (initCPM maxC now) := by
  refine ⟨rfl, ?_, ?_, rfl, ?_, ?_⟩ <;> simp [initCPM, initializeMetrics]

theorem performClientRelease_result_client (s : CPMState) (c : Client) (e : Option String)
    (f : Option Bool) (n : Nat) :
    (performClientRelease s c e f n).2.1.hasOriginalRelease = false ∧
    isTracked (performClientRelease s c e f n).1 (performClientRelease s c e f n).2.1 = false := by
  cases hcid : c.connectionId with
  | none =>
    have hu : isTracked s c = false := by unfold isTracked; rw [hcid]
    rw [performClientRelease_untracked s c e f n hu]
    unfold untrackedRelease isTracked
    cases ho : c.hasOriginalRelease <;> simp [hcid, ho]
  | some cid =>
    cases hl : lookupConn s.connectionTimestamps cid with
    | none =>
      have hu : isTracked s c = false := by
        unfold isTracked; rw [hcid]; dsimp only; rw [hl]; rfl
      rw [performClientRelease_untracked s c e f n hu]
      unfold untrackedRelease isTracked
      cases ho : c.hasOriginalRelease <;> simp [hcid, ho, hl]
    | some info =>
      rw [performClientRelease_tracked s c cid info e f n hcid hl]
      exact ⟨rfl, rfl⟩

theorem performClientRelease_second_noop (s : CPMState) (c : Client) (e e2 : Option String)
    (f f2 : Option Bool) (n n2 : Nat) :
    (performClientRelease (performClientRelease s c e f n).1
        (performClientRelease s c e f n).2.1 e2 f2 n2).1
      = (performClientRelease s c e f n).1 := by
  obtain ⟨ho, hu⟩ := performClientRelease_result_client s c e f n
  rw [performClientRelease_untracked _ _ e2 f2 n2 hu]
  unfold untrackedRelease
  simp [ho]

/-! ## Claim theorems: ConnectionPoolManager -/

/-- C4: over every sequence of completed acquire (`getConnection`) and
release (`releaseConnection`/`performClientRelease`) operations on a manager
with configured maximum `maxC`, the `activeLeasedConnections` counter stays
between 0 and `maxC`. -/
theorem active_lease_count_bounds (maxC now : Nat) (ops : List PoolOp) :
    0 ≤ (poolRun (initCPM maxC now) ops).metrics.activeLeasedConnections ∧
    (poolRun (initCPM maxC now) ops).metrics.activeLeasedConnections ≤ (maxC : Int) := by
  obtain ⟨h1, h2, h3, hmx, h4, h5⟩ := poolRun_inv maxC _ ops (poolInv_init maxC now)
  constructor
  · rw [h1]
    positivity
  · rw [h1]
    omega

/-- C7: release is idempotent.  Releasing an untracked or already-released
handle leaves the metrics untouched (and, being a total function, throws
nothing); releasing a tracked handle clears exactly the pending
query-timeout timer, decrements `activeLeasedConnections` clamped at zero,
and removes the tracking entry; and immediately releasing the resulting
handle again changes nothing. -/
theorem release_idempotent_spec (s : CPMState) (c : Client) (e e2 : Option String)
    (f f2 : Option Bool) (now now2 : Nat) :
    (isTracked s c = false →
       (performClientRelease s c e f now).1.metrics = s.metrics) ∧
    (∀ cid info, c.connectionId = some cid →
       lookupConn s.connectionTimestamps cid = some info →
       ((performClientRelease s c e f now).2.2.timerCleared = info.queryTimeoutTimer ∧
        (performClientRelease s c e f now).1.metrics.activeLeasedConnections
          = max 0 (s.metrics.activeLeasedConnections - 1) ∧
        lookupConn (performClientRelease s c e f now).1.connectionTimestamps cid = none)) ∧
    (performClientRelease (performClientRelease s c e f now).1
        (performClientRelease s c e f now).2.1 e2 f2 now2).1
      = (performClientRelease s c e f now).1 := by
  refine ⟨?_, ?_, performClientRelease_second_noop s c e e2 f f2 now now2⟩
  · intro hu
    rw [performClientRelease_untracked s c e f now hu]
    unfold untrackedRelease
    cases ho : c.hasOriginalRelease <;> simp [ho]
  · intro cid info hcid hl
    rw [performClientRelease_tracked s c cid info e f now hcid hl]
    exact ⟨rfl, rfl, lookupConn_eraseConn_self _ _⟩

/-- C7 (witness): releasing the concrete tracked lease of `poolSample`,
then releasing the same handle a second time. -/
theorem release_idempotent_spec_witness :
    poolClientSample.connectionId = some 0 ∧
    lookupConn poolSample.connectionTimestamps 0 = some poolInfoSample ∧
    ((performClientRelease poolSample poolClientSample none none 3).2.2.timerCleared
       = poolInfoSample.queryTimeoutTimer ∧
     (performClientRelease poolSample poolClientSample none none 3).1.metrics.activeLeasedConnections
       = max 0 (poolSample.metrics.activeLeasedConnections - 1) ∧
     lookupConn (performClientRelease poolSample poolClientSample
       none none 3).1.connectionTimestamps 0 = none) ∧
    (performClientRelease (performClientRelease poolSample poolClientSample none none 3).1
        (performClientRelease poolSample poolClientSample none none 3).2.1 none none 4).1
      = (performClientRelease poolSample poolClientSample none none 3).1 := by
  have h := release_idempotent_spec poolSample poolClientSample none none none none 3 4
  exact ⟨by decide, by decide, h.2.1 0 poolInfoSample (by decide) (by decide), h.2.2⟩

/-- C5: for a query racing its deadline timer on a tracked handle — if the
timer fires first, an error event is emitted, at most one cancellation
attempt is made (exactly when the backend pid is known), the handle is
force-released with a `client_error_released` history entry and discarded
rather than recycled, and its tracking entry is removed; if the query
settles first, the timer is cleared, no cancellation is attempted, no
release happens and the metrics are untouched. -/
theorem query_timeout_spec (s : CPMState) (c : Client) (cid : Nat) (info : ConnInfo) (now : Nat)
    (hcid : c.connectionId = some cid)
    (ht : lookupConn s.connectionTimestamps cid = some info)
    (hr : c.hasOriginalRelease = true) :
    (∀ cancelOk,
      (runWrappedQuery s c (QueryRace.timedOut cancelOk) now).2.2.errorEventEmitted = true ∧
      (runWrappedQuery s c (QueryRace.timedOut cancelOk) now).2.2.cancellationAttempts ≤ 1 ∧
      (runWrappedQuery s c (QueryRace.timedOut cancelOk) now).2.2.physicalRelease
        = ReleaseAction.discarded ∧
      ((runWrappedQuery s c (QueryRace.timedOut cancelOk) now).1.metrics.connectionHistory.getLast?).map
          (fun h => h.type) = some ConnEvent.client_error_released ∧
      lookupConn (runWrappedQuery s c (QueryRace.timedOut cancelOk) now).1.connectionTimestamps cid
        = none) ∧
    (∀ ok,
      (runWrappedQuery s c (QueryRace.completed ok) now).2.2.cancellationAttempts = 0 ∧
      (runWrappedQuery s c (QueryRace.completed ok) now).2.2.errorEventEmitted = false ∧
      (runWrappedQuery s c (QueryRace.completed ok) now).2.2.physicalRelease
        = ReleaseAction.noCall ∧
      (lookupConn (runWrappedQuery s c (QueryRace.completed ok) now).1.connectionTimestamps cid).map
          (fun i => i.queryTimeoutTimer) = some false ∧
      (runWrappedQuery s c (QueryRace.completed ok) now).1.metrics = s.metrics) := by
  have htimer : lookupConn (setTimerFlag s.connectionTimestamps cid true) cid
      = some { info with queryTimeoutTimer := true } := by
    rw [lookupConn_setTimerFlag_self, ht]
    rfl
  constructor
  · intro cancelOk
    unfold runWrappedQuery
    rw [hcid]
    dsimp only
    rw [performClientRelease_tracked _ c cid { info with queryTimeoutTimer := true }
          _ none now hcid htimer]
    refine ⟨rfl, ?_, ?_, ?_, ?_⟩
    · cases hp : c.processID <;> simp [hp]
    · rw [hr]
      rfl
    · rw [addHistory_getLast]
      rfl
    · exact lookupConn_eraseConn_self _ _
  · intro ok
    unfold runWrappedQuery
    rw [hcid]
    dsimp only
    refine ⟨rfl, rfl, rfl, ?_, rfl⟩
    rw [lookupConn_setTimerFlag_self, lookupConn_setTimerFlag_self, ht]
    rfl

/-- C5 (witness): the race on the concrete tracked lease of `poolSample`
(backend pid 42 known). -/
theorem query_timeout_spec_witness :
    poolClientSample.connectionId = some 0 ∧
    lookupConn poolSample.connectionTimestamps 0 = some poolInfoSample ∧
    poolClientSample.hasOriginalRelease = true ∧
    ((runWrappedQuery poolSample poolClientSample (QueryRace.timedOut true) 5).2.2.errorEventEmitted
       = true ∧
     (runWrappedQuery poolSample poolClientSample (QueryRace.timedOut true) 5).2.2.cancellationAttempts
       ≤ 1 ∧
     (runWrappedQuery poolSample poolClientSample (QueryRace.timedOut true) 5).2.2.physicalRelease
       = ReleaseAction.discarded ∧
     (runWrappedQuery poolSample poolClientSample (QueryRace.completed true) 5).2.2.cancellationAttempts
       = 0) := by
  have h := query_timeout_spec poolSample poolClientSample 0 poolInfoSample 5
    (by decide) (by decide) (by decide)
  exact ⟨by decide, by decide, by decide,
    (h.1 true).1, (h.1 true).2.1, (h.1 true).2.2.1, (h.2 true).1⟩

/-- C10: `resetMetrics` zeroes every counter, the duration list and the
event history, preserves only the historical maximum concurrent lease
count, stamps a new `lastMetricsResetTime`, and leaves the active-lease
tracking table (and the rest of the manager state) untouched. -/
theorem resetMetrics_spec (s : CPMState) (now : Nat) :
    (resetMetrics s now).metrics.totalConnectionsCreated = 0 ∧
    (resetMetrics s now).metrics.acquiredConnections = 0 ∧
    (resetMetrics s now).metrics.releasedConnections = 0 ∧
    (resetMetrics s now).metrics.failedAcquisitions = 0 ∧
    (resetMetrics s now).metrics.activeLeasedConnections = 0 ∧
    (resetMetrics s now).metrics.connectionDurations = [] ∧
    (resetMetrics s now).metrics.connectionHistory = [] ∧
    (resetMetrics s now).metrics.poolTotalCount = 0 ∧
    (resetMetrics s now).metrics.poolIdleCount = 0 ∧
    (resetMetrics s now).metrics.poolWaitingCount = 0 ∧
    (resetMetrics s now).metrics.maxConcurrentLeasedConnections
      = s.metrics.maxConcurrentLeasedConnections ∧
    (resetMetrics s now).metrics.lastMetricsResetTime = now ∧
    (resetMetrics s now).connectionTimestamps = s.connectionTimestamps ∧
    (resetMetrics s now).poolCheckedOut = s.poolCheckedOut ∧
    (resetMetrics s now).maxConnections = s.maxConnections ∧
    (resetMetrics s now).nextConnId = s.nextConnId :=
  ⟨rfl, rfl, rfl, rfl, rfl, rfl, rfl, rfl, rfl, rfl, rfl, rfl, rfl, rfl, rfl, rfl⟩

end PeculiarOrm
